import Mathlib

/-!
Verification development for the Synnia persistence core
(`src-tauri/src/services/{io,io_sqlite,history,hash,database}.rs` and
`src-tauri/src/commands/history.rs`).

Modelling conventions:

- Rust `f64` coordinate fields (viewport, node positions and sizes) are
  modelled as rationals (`Rat`).  The store never computes with them, it only
  round-trips them, so only equality matters.
- `serde_json` serialization is modelled by the tagged type `Ser alpha`:
  `Ser.enc pretty a` stands for the byte string produced by
  `serde_json::to_string_pretty` (pretty = true) or `serde_json::to_string`
  (pretty = false) on `a`, and `Ser.raw s` stands for bytes that are not such
  an output.  `to_string` is deterministic, so equality of `Ser` values
  corresponds to byte equality of file or column contents, and
  `serde_json::from_str` is modelled by `Ser.dec`.
- SHA-256 (`services/hash.rs::compute_content_hash`) is idealized as a perfect
  content fingerprint: `Hash.mk s` is the digest of the serialized bytes `s`,
  and digest equality coincides with byte equality.  All claims treat the hash
  only through equality tests, which is exactly the collision-resistance
  assumption.
- SQLite is modelled by typed tables plus, for every SQL statement the code
  prepares, an explicit check of the column names the statement mentions
  against the schema of `services/database.rs::SCHEMA_SQL`.  SQLite rejects a
  statement naming an unknown column at prepare time; the check reproduces
  that, including the message formats used by SQLite
  (`no such column: c` for SELECT/UPDATE, `table t has no column named c`
  for INSERT).
-/

set_option maxRecDepth 100000

namespace Synnia

/-- Equality of Except results is decidable when both components are. -/
instance {ε α : Type} [DecidableEq ε] [DecidableEq α] :
    DecidableEq (Except ε α) := fun x y =>
  match x, y with
  | .error e, .error f =>
    if h : e = f then .isTrue (by rw [h])
    else .isFalse (fun hh => h (by cases hh; rfl))
  | .error _, .ok _ => .isFalse (fun hh => by cases hh)
  | .ok _, .error _ => .isFalse (fun hh => by cases hh)
  | .ok a, .ok b =>
    if h : a = b then .isTrue (by rw [h])
    else .isFalse (fun hh => h (by cases hh; rfl))

/-- Output of serde_json serialization of an `alpha`, or raw bytes. -/
inductive Ser (α : Type) where
  | enc (pretty : Bool) (a : α)
  | raw (s : String)
deriving DecidableEq, Repr

/-- Model of serde_json::from_str at type `alpha`. -/
def Ser.dec {α : Type} : Ser α → Option α
  | .enc _ a => some a
  | .raw _ => none

/-- Model of serde_json::Value.  The store treats asset values opaquely
(it only serializes and hashes them), so a few representative constructors
suffice; no claim inspects the shape of a value. -/
inductive JVal where
  | null
  | bool (b : Bool)
  | num (n : Int)
  | str (s : String)
deriving DecidableEq, Repr

/-- SHA-256 digest, idealized as a perfect fingerprint of the hashed bytes. -/
structure Hash where
  digestOf : Ser JVal
deriving DecidableEq, Repr

/-- services/hash.rs compute_content_hash: SHA-256 of the serialized content. -/
def compute_content_hash (content : Ser JVal) : Hash := ⟨content⟩

-- ==========================================
-- Data model (src-tauri/src/models.rs)
-- ==========================================

/-- models.rs ValueType. -/
inductive ValueType where
  | text
  | image
  | record
  | array
deriving DecidableEq, Repr

/-- Serde lowercase rendering of ValueType. -/
def ValueType.toStr : ValueType → String
  | .text => "text"
  | .image => "image"
  | .record => "record"
  | .array => "array"

/-- models.rs AssetSysMetadata. -/
structure AssetSysMetadata where
  name : String
  created_at : Int
  updated_at : Int
  source : String
deriving DecidableEq, Repr

/-- models.rs Asset (current unified structure). -/
structure Asset where
  id : String
  value_type : ValueType
  value : JVal
  value_meta : Option JVal
  config : Option JVal
  sys : AssetSysMetadata
deriving DecidableEq, Repr

/-- models.rs Position (f64 modelled as Rat). -/
structure Position where
  x : Rat
  y : Rat
deriving DecidableEq, Repr

/-- models.rs SynniaNodeData. -/
structure SynniaNodeData where
  title : String
  asset_id : Option String
  is_reference : Option Bool
  collapsed : Option Bool
  layout_mode : Option String
  docked_to : Option String
  state : Option String
  recipe_id : Option String
  has_product_handle : Option Bool
deriving DecidableEq, Repr

/-- models.rs SynniaNode. -/
structure SynniaNode where
  id : String
  type_ : String
  position : Position
  width : Option Rat
  height : Option Rat
  parent_id : Option String
  extent : Option String
  style : Option (List (String × JVal))
  data : SynniaNodeData
deriving DecidableEq, Repr

/-- models.rs SynniaEdge. -/
structure SynniaEdge where
  id : String
  source : String
  target : String
  source_handle : Option String
  target_handle : Option String
  type_ : Option String
  label : Option String
  animated : Option Bool
deriving DecidableEq, Repr

/-- models.rs Graph. -/
structure Graph where
  nodes : List SynniaNode
  edges : List SynniaEdge
deriving DecidableEq, Repr

/-- models.rs Viewport (f64 modelled as Rat). -/
structure Viewport where
  x : Rat
  y : Rat
  zoom : Rat
deriving DecidableEq, Repr

/-- models.rs ProjectMeta. -/
structure ProjectMeta where
  id : String
  name : String
  created_at : String
  updated_at : String
  thumbnail : Option String
  description : Option String
  author : Option String
deriving DecidableEq, Repr

/-- models.rs SynniaProject.  The assets HashMap is modelled as an
association list keyed by asset id. -/
structure SynniaProject where
  version : String
  meta : ProjectMeta
  viewport : Viewport
  graph : Graph
  assets : List (String × Asset)
  settings : Option (List (String × JVal))
deriving DecidableEq, Repr

/-- error.rs AppError. -/
inductive AppError where
  | Database (msg : String)
  | Io (msg : String)
  | Network (msg : String)
  | Agent (msg : String)
  | ProjectNotLoaded
  | NotFound (msg : String)
  | Unknown (msg : String)
deriving DecidableEq, Repr

-- ==========================================
-- Document backend (src-tauri/src/services/io.rs)
-- ==========================================

/-- State of the three store-private files under one project root.
`none` means the file does not exist; `some d` means it exists with
content `d` (a `Ser SynniaProject`, see the header conventions). -/
structure FS where
  rootExists : Bool
  canonical : Option (Ser SynniaProject)
  tmp : Option (Ser SynniaProject)
  autosave : Option (Ser SynniaProject)
deriving DecidableEq, Repr

/-- io.rs save_project_autosave: validate the root, then serialize compactly
and write synnia.json.autosave in one step.  Errors propagate to the caller
through the question-mark operator. -/
def save_project_autosave (fs : FS) (project : SynniaProject) :
    Except AppError Unit × FS :=
  if fs.rootExists then
    (.ok (), { fs with autosave := some (Ser.enc false project) })
  else
    (.error (.Io ("Project path does not exist")), fs)

/-- State after `fs::File::create(tmp_path)` in io.rs save_project:
the temp file exists, truncated to empty (raw bytes, not yet a document). -/
def saveStepCreateTmp (fs : FS) : FS :=
  { fs with tmp := some (Ser.raw "") }

/-- State after `write_all` plus `sync_all` in io.rs save_project:
the temp file holds the full pretty-printed document. -/
def saveStepWriteTmp (fs : FS) (project : SynniaProject) : FS :=
  { fs with tmp := some (Ser.enc true project) }

/-- State after `fs::rename(tmp_path, file_path)` in io.rs save_project:
the canonical file atomically becomes the temp content. -/
def saveStepRename (fs : FS) (project : SynniaProject) : FS :=
  { saveStepWriteTmp fs project with
      canonical := some (Ser.enc true project), tmp := none }

/-- State after the hot-exit cleanup in io.rs save_project:
the autosave artifact is removed (remove_file errors are discarded). -/
def saveStepCleanAutosave (fs : FS) (project : SynniaProject) : FS :=
  { saveStepRename fs project with autosave := none }

/-- io.rs save_project: validate, serialize pretty, write temp, fsync,
atomically rename, then delete the autosave artifact. -/
def save_project (fs : FS) (project : SynniaProject) :
    Except AppError Unit × FS :=
  if fs.rootExists then
    (.ok (), saveStepCleanAutosave fs project)
  else
    (.error (.Io ("Project path does not exist")), fs)

/-- Every filesystem state save_project passes through before the atomic
rename is executed (the initial state, after temp creation, after the temp
write and fsync).  A crash between temp-write and rename stops the run in
one of these states. -/
def saveProjectPreRenameStates (fs : FS) (project : SynniaProject) : List FS :=
  if fs.rootExists then
    [fs, saveStepCreateTmp fs, saveStepWriteTmp fs project]
  else
    [fs]

/-- Every filesystem state save_project passes through, start to finish. -/
def saveProjectAllStates (fs : FS) (project : SynniaProject) : List FS :=
  if fs.rootExists then
    [fs, saveStepCreateTmp fs, saveStepWriteTmp fs project,
     saveStepRename fs project, saveStepCleanAutosave fs project]
  else
    [fs]

/-- Shared tail of io.rs load_project: read the chosen file and parse it with
serde_json::from_str; a parse failure surfaces through
From of serde_json::Error for AppError as AppError::Unknown. -/
def readProjectFile (d : Ser SynniaProject) : Except AppError SynniaProject :=
  match d.dec with
  | some p => .ok p
  | none => .error (.Unknown ("Serialization error"))

/-- io.rs load_project: prefer synnia.json.autosave when it exists, else
synnia.json; NotFound when the chosen file is missing.  No referential or
consistency check of any kind is performed on the parsed project. -/
def load_project (fs : FS) : Except AppError SynniaProject :=
  match (if fs.autosave.isSome then fs.autosave else fs.canonical) with
  | none => .error (.NotFound ("synnia.json not found in project directory"))
  | some d => readProjectFile d

-- ==========================================
-- SQLite model (src-tauri/src/services/database.rs)
-- ==========================================

/-- Columns of the project_meta table in SCHEMA_SQL. -/
def metaCols : List String :=
  ["id", "name", "description", "author", "thumbnail", "created_at", "updated_at"]

/-- Columns of the viewport table in SCHEMA_SQL. -/
def viewportCols : List String := ["id", "x", "y", "zoom"]

/-- Columns of the nodes table in SCHEMA_SQL. -/
def nodesCols : List String :=
  ["id", "type", "x", "y", "width", "height", "parent_id", "extent",
   "style_json", "data_json"]

/-- Columns of the edges table in SCHEMA_SQL. -/
def edgesCols : List String :=
  ["id", "source", "target", "source_handle", "target_handle", "type",
   "label", "animated"]

/-- Columns of the assets table in SCHEMA_SQL (the current unified
structure: value_type, value_hash, value_json, value_meta_json, config_json,
sys_json). -/
def assetsCols : List String :=
  ["id", "value_type", "value_hash", "value_json", "value_meta_json",
   "config_json", "sys_json", "updated_at"]

/-- Columns of the asset_history table in SCHEMA_SQL. -/
def historyCols : List String :=
  ["id", "asset_id", "content_hash", "content_json", "created_at"]

/-- Columns of the settings table in SCHEMA_SQL. -/
def settingsCols : List String := ["key", "value_json"]

/-- First column used by a statement that the table schema lacks, if any. -/
def firstMissingCol (tableCols used : List String) : Option String :=
  used.find? (fun c => !(tableCols.contains c))

/-- SQLite prepare-time check for SELECT / UPDATE / DELETE statements:
naming a column the table lacks fails with `no such column: c`. -/
def checkQueryCols (tableCols used : List String) : Except String Unit :=
  match firstMissingCol tableCols used with
  | some c => .error ("no such column: " ++ c)
  | none => .ok ()

/-- SQLite prepare-time check for INSERT statements: naming a column the
table lacks fails with `table t has no column named c`. -/
def checkInsertCols (table : String) (tableCols used : List String) :
    Except String Unit :=
  match firstMissingCol tableCols used with
  | some c => .error ("table " ++ table ++ " has no column named " ++ c)
  | none => .ok ()

/-- Wrap a sqlite-level result the way the Rust code maps rusqlite errors:
`.map_err(|e| AppError::Io(format!(prefix, e)))`. -/
def mapIoErr {α : Type} (prefix_ : String) :
    Except String α → Except AppError α
  | .ok a => .ok a
  | .error m => .error (.Io (prefix_ ++ m))

/-- Row of project_meta. -/
structure MetaRow where
  id : String
  name : String
  description : Option String
  author : Option String
  thumbnail : Option String
  createdAt : Int
  updatedAt : Int
deriving DecidableEq, Repr

/-- The singleton viewport row (id = 1), always present: SCHEMA_SQL inserts
the default (0, 0, 1) at creation. -/
structure ViewportRow where
  x : Rat
  y : Rat
  zoom : Rat
deriving DecidableEq, Repr

/-- Row of nodes. -/
structure NodeRow where
  id : String
  type_ : String
  x : Rat
  y : Rat
  width : Option Rat
  height : Option Rat
  parentId : Option String
  extent : Option String
  styleJson : Option (Ser (List (String × JVal)))
  dataJson : Ser SynniaNodeData
deriving DecidableEq, Repr

/-- Row of edges. -/
structure EdgeRow where
  id : String
  source : String
  target : String
  sourceHandle : Option String
  targetHandle : Option String
  type_ : Option String
  label : Option String
  animated : Option Int
deriving DecidableEq, Repr

/-- Row of assets (current unified schema). -/
structure AssetRow where
  id : String
  valueType : Ser ValueType
  valueHash : Hash
  valueJson : Ser JVal
  valueMetaJson : Option (Ser JVal)
  configJson : Option (Ser JVal)
  sysJson : Ser AssetSysMetadata
  updatedAt : Int
deriving DecidableEq, Repr

/-- Row of asset_history; id models the INTEGER PRIMARY KEY AUTOINCREMENT. -/
structure HistRow where
  id : Nat
  assetId : String
  contentHash : Hash
  contentJson : Ser JVal
  createdAt : Int
deriving DecidableEq, Repr

/-- Row of settings. -/
structure SettingRow where
  key : String
  valueJson : Ser JVal
deriving DecidableEq, Repr

/-- The whole synnia.db database.  nextHistId models the AUTOINCREMENT
counter of asset_history. -/
structure Db where
  projectMeta : List MetaRow
  viewport : ViewportRow
  nodes : List NodeRow
  edges : List EdgeRow
  assets : List AssetRow
  history : List HistRow
  settings : List SettingRow
  nextHistId : Nat
deriving DecidableEq, Repr

/-- Database produced by database.rs init_db on a fresh file: empty tables,
default viewport row, AUTOINCREMENT starting at 1. -/
def emptyDb : Db :=
  { projectMeta := [], viewport := ⟨0, 0, 1⟩, nodes := [], edges := [],
    assets := [], history := [], settings := [], nextHistId := 1 }

-- ==========================================
-- History ledger (src-tauri/src/services/history.rs)
-- ==========================================

namespace History

/-- history.rs MAX_HISTORY_PER_ASSET. -/
def MAX_HISTORY_PER_ASSET : Int := 50

/-- Newest-first order used by `ORDER BY created_at DESC` on the
idx_history_time index: later created_at first; rows with equal created_at
are yielded in the order the index stores them, which this model fixes as
rowid (id) descending so the order is total. -/
def histNewer (a b : HistRow) : Prop :=
  b.createdAt < a.createdAt ∨ (b.createdAt = a.createdAt ∧ b.id ≤ a.id)

instance : DecidableRel histNewer := fun a b =>
  decidable_of_iff
    (b.createdAt < a.createdAt ∨ (b.createdAt = a.createdAt ∧ b.id ≤ a.id))
    Iff.rfl

instance : IsTotal HistRow histNewer := by
  constructor
  intro a b
  rcases lt_trichotomy a.createdAt b.createdAt with h | h | h
  · exact Or.inr (Or.inl h)
  · rcases Nat.le_total a.id b.id with h2 | h2
    · exact Or.inr (Or.inr ⟨h, h2⟩)
    · exact Or.inl (Or.inr ⟨h.symm, h2⟩)
  · exact Or.inl (Or.inl h)

instance : IsTrans HistRow histNewer := by
  constructor
  intro a b c hab hbc
  rcases hab with h1 | ⟨e1, l1⟩
  · rcases hbc with h2 | ⟨e2, _⟩
    · exact Or.inl (h2.trans h1)
    · exact Or.inl (e2 ▸ h1)
  · rcases hbc with h2 | ⟨e2, l2⟩
    · exact Or.inl (e1 ▸ h2)
    · exact Or.inr ⟨e2.trans e1, l2.trans l1⟩

/-- Result list of `ORDER BY created_at DESC` over the given rows. -/
def sortNewestFirst (rows : List HistRow) : List HistRow :=
  rows.insertionSort histNewer

/-- SQLite LIMIT semantics: a negative limit means no limit. -/
def applyLimit {α : Type} (limit : Int) (l : List α) : List α :=
  if limit < 0 then l else l.take limit.toNat

/-- Result of the subselect in history.rs cleanup_old_history:
`SELECT id FROM asset_history WHERE asset_id = ?1 ORDER BY created_at DESC
LIMIT 50` — the ids of the newest MAX_HISTORY_PER_ASSET rows of the asset. -/
def keepIds (history : List HistRow) (assetId : String) : List Nat :=
  (applyLimit MAX_HISTORY_PER_ASSET
    (sortNewestFirst (history.filter (fun r => r.assetId == assetId)))).map
    (fun r => r.id)

/-- State of the database after the DELETE of cleanup_old_history. -/
def cleanupDb (db : Db) (assetId : String) : Db :=
  { db with
    history := db.history.filter
      (fun r => !(r.assetId == assetId)
        || (keepIds db.history assetId).contains r.id) }

/-- history.rs cleanup_old_history: DELETE the rows of this asset whose id
is not among the newest MAX_HISTORY_PER_ASSET ids by created_at. -/
def cleanup_old_history (db : Db) (assetId : String) : Except String Db := do
  checkQueryCols historyCols ["asset_id", "id", "created_at"]
  pure (cleanupDb db assetId)

/-- State of the database after the INSERT of create_snapshot_if_changed:
the new row appended with the next AUTOINCREMENT id. -/
def insertDb (db : Db) (assetId : String) (contentHash : Hash)
    (contentJson : Ser JVal) (now : Int) : Db :=
  { db with
    history := db.history
      ++ [⟨db.nextHistId, assetId, contentHash, contentJson, now⟩],
    nextHistId := db.nextHistId + 1 }

/-- history.rs create_snapshot_if_changed: INSERT OR IGNORE deduplicated by
the unique index on (asset_id, content_hash); on a real insert, trim old
entries.  Returns whether an insert occurred.  The insertion timestamp
(chrono::Utc::now) is an explicit argument. -/
def create_snapshot_if_changed (db : Db) (assetId : String)
    (contentHash : Hash) (contentJson : Ser JVal) (now : Int) :
    Except String (Bool × Db) := do
  checkInsertCols "asset_history" historyCols
    ["asset_id", "content_hash", "content_json", "created_at"]
  if db.history.any
      (fun r => r.assetId == assetId && r.contentHash == contentHash) then
    pure (false, db)
  else
    let db2 ← cleanup_old_history (insertDb db assetId contentHash contentJson now) assetId
    pure (true, db2)

/-- history.rs get_asset_history: rows of one asset, newest first,
LIMIT defaulting to 50. -/
def get_asset_history (db : Db) (assetId : String) (limit : Option Int) :
    Except String (List HistRow) := do
  checkQueryCols historyCols
    ["id", "asset_id", "content_hash", "content_json", "created_at"]
  pure (applyLimit (limit.getD 50)
    (sortNewestFirst (db.history.filter (fun r => r.assetId == assetId))))

/-- history.rs get_history_entry: lookup by primary key. -/
def get_history_entry (db : Db) (historyId : Nat) :
    Except String (Option HistRow) := do
  checkQueryCols historyCols
    ["id", "asset_id", "content_hash", "content_json", "created_at"]
  pure (db.history.find? (fun r => r.id == historyId))

/-- history.rs get_current_hash: prepares
`SELECT content_hash FROM assets WHERE id = ?1`.  The assets table of
SCHEMA_SQL has no column named content_hash (its hash column is value_hash),
so sqlite rejects the statement at prepare time and this always returns the
error; the row read after the check is unreachable. -/
def get_current_hash (db : Db) (assetId : String) :
    Except String (Option Hash) := do
  checkQueryCols assetsCols ["content_hash", "id"]
  pure ((db.assets.find? (fun r => r.id == assetId)).map
    (fun r => r.valueHash))

/-- history.rs count_history. -/
def count_history (db : Db) (assetId : String) : Except String Int := do
  checkQueryCols historyCols ["asset_id"]
  pure ((db.history.filter (fun r => r.assetId == assetId)).length : Int)

end History

-- ==========================================
-- History commands (src-tauri/src/commands/history.rs)
-- ==========================================

namespace Cmd

/-- commands/history.rs truncate_content output: the preview is a pure
function of the content bytes and the length cap; no claim inspects the
truncated bytes themselves, so the pair is kept as is. -/
structure Preview where
  src : Ser JVal
  maxLen : Nat
deriving DecidableEq, Repr

/-- commands/history.rs truncate_content. -/
def truncate_content (content : Ser JVal) (maxLen : Nat) : Preview :=
  ⟨content, maxLen⟩

/-- commands/history.rs HistoryEntry (frontend-facing). -/
structure HistoryEntry where
  id : Int
  asset_id : String
  content_hash : Hash
  content_preview : Preview
  created_at : Int
deriving DecidableEq, Repr

/-- ON CONFLICT(id) DO UPDATE upsert into the assets table used by
commands/history.rs save_asset_with_history; all columns it names exist in
the schema. -/
def upsertAssetRow (db : Db) (row : AssetRow) : Except String Db := do
  checkInsertCols "assets" assetsCols
    ["id", "value_type", "value_hash", "value_json", "value_meta_json",
     "config_json", "sys_json", "updated_at"]
  if db.assets.any (fun r => r.id == row.id) then
    pure { db with
      assets := db.assets.map (fun r => if r.id == row.id then row else r) }
  else
    pure { db with assets := db.assets ++ [row] }

/-- commands/history.rs save_asset_with_history.  The two
chrono::Utc::now() readings (snapshot time, updated_at) are modelled by the
single argument `now`; no claim depends on their difference.  Note the very
first database access, get_current_hash, prepares a statement the schema
rejects, so the whole command errors before reaching any write. -/
def save_asset_with_history (db : Db) (asset : Asset) (now : Int) :
    Except AppError (Bool × Db) := do
  let value_json := Ser.enc false asset.value
  let new_hash := compute_content_hash value_json
  let old_hash ← mapIoErr ("Failed to get current hash: ")
    (History.get_current_hash db asset.id)
  let hash_changed := old_hash ≠ some new_hash
  let db1 ←
    if hash_changed then
      match old_hash with
      | some old =>
        match (db.assets.find? (fun r => r.id == asset.id)).map
            (fun r => r.valueJson) with
        | some old_value => do
          let res ← mapIoErr ("Failed to create snapshot: ")
            (History.create_snapshot_if_changed db asset.id old old_value now)
          pure res.2
        | none => pure db
      | none => pure db
    else
      pure db
  let row : AssetRow :=
    { id := asset.id, valueType := Ser.enc false asset.value_type,
      valueHash := new_hash, valueJson := value_json,
      valueMetaJson := asset.value_meta.map (Ser.enc false),
      configJson := asset.config.map (Ser.enc false),
      sysJson := Ser.enc false asset.sys, updatedAt := now }
  let db2 ← mapIoErr ("Failed to save asset: ") (upsertAssetRow db1 row)
  pure (hash_changed, db2)

/-- commands/history.rs get_asset_history: current version first with the
reserved id 0 (read from the assets table; query_row(..).ok() yields None
when the asset is absent), then historical snapshots newest first with the
limit reduced by one when it exceeds one. -/
def get_asset_history (db : Db) (assetId : String) (limit : Option Int) :
    Except AppError (List HistoryEntry) := do
  let current := (db.assets.find? (fun r => r.id == assetId)).map
    (fun r => (r.valueHash, r.valueJson, r.updatedAt))
  let head : List HistoryEntry :=
    match current with
    | some (h, c, u) => [⟨0, assetId, h, truncate_content c 100, u⟩]
    | none => []
  let history_limit := limit.map (fun l => if l > 1 then l - 1 else l)
  let entries ← mapIoErr ("Failed to get history: ")
    (History.get_asset_history db assetId history_limit)
  pure (head ++ entries.map
    (fun e => ⟨(e.id : Int), e.assetId, e.contentHash,
               truncate_content e.contentJson 100, e.createdAt⟩))

/-- UPDATE used by commands/history.rs restore_asset_version:
`UPDATE assets SET content_json = ?1, content_hash = ?2, updated_at = ?3
WHERE id = ?4`.  The assets table has no content_json or content_hash
column (they are value_json and value_hash), so sqlite rejects the statement
at prepare time; the write after the check is unreachable. -/
def updateAssetContent (db : Db) (assetId : String) (contentJson : Ser JVal)
    (contentHash : Hash) (now : Int) : Except String Db := do
  checkQueryCols assetsCols ["content_json", "content_hash", "updated_at", "id"]
  pure { db with
    assets := db.assets.map (fun r =>
      if r.id == assetId then
        { r with valueJson := contentJson, valueHash := contentHash,
                 updatedAt := now }
      else r) }

/-- commands/history.rs restore_asset_version: fetch the entry, fail if it
belongs to another asset, parse its content, then write it back as the
current asset content. -/
def restore_asset_version (db : Db) (assetId : String) (historyId : Nat)
    (now : Int) : Except AppError (JVal × Db) := do
  let entry? ← mapIoErr ("Failed to get history entry: ")
    (History.get_history_entry db historyId)
  match entry? with
  | none => .error (.NotFound ("History entry not found"))
  | some entry =>
    if entry.assetId ≠ assetId then
      .error (.Unknown ("History entry does not belong to this asset"))
    else
      match entry.contentJson.dec with
      | none => .error (.Unknown ("Serialization error"))
      | some content => do
        let db1 ← mapIoErr ("Failed to restore asset: ")
          (updateAssetContent db assetId entry.contentJson
            (compute_content_hash entry.contentJson) now)
        pure (content, db1)

/-- commands/history.rs count_asset_history. -/
def count_asset_history (db : Db) (assetId : String) : Except AppError Int :=
  mapIoErr ("Failed to count history: ") (History.count_history db assetId)

end Cmd

-- ==========================================
-- SQLite project I/O (src-tauri/src/services/io_sqlite.rs)
--
-- This module predates the current models.rs and database.rs: it reads and
-- writes asset columns (type, content_hash, content_json, metadata_json)
-- that SCHEMA_SQL does not create, and it reads Asset fields (content,
-- metadata) that models.rs no longer defines.  Where such a field is
-- mentioned, the embedding maps it to the nearest current field (content ->
-- value, metadata -> sys); the mapped values are irrelevant because the
-- statement-level column checks reject those statements first.
-- ==========================================

namespace IoSqlite

/-- chrono RFC3339 parsing, modelled opaquely: its result is stored but
never influences any verified claim (the enclosing transaction rolls back
before commit in every claim that reaches it). -/
def rfc3339_to_millis (_s : String) : Option Int := none

/-- chrono RFC3339 formatting, modelled opaquely (injective rendering of the
timestamp; its exact text never influences any verified claim). -/
def millis_to_rfc3339 (n : Int) : String := toString n

/-- io_sqlite.rs save_project_meta: upsert the metadata row; on conflict the
stored created_at is kept, the other fields are replaced. -/
def save_project_meta (db : Db) (meta : ProjectMeta) (now : Int) :
    Except AppError Db :=
  mapIoErr ("Failed to save project meta: ") (do
    checkInsertCols "project_meta" metaCols
      ["id", "name", "description", "author", "thumbnail", "created_at",
       "updated_at"]
    let created_ts := (rfc3339_to_millis meta.created_at).getD now
    if db.projectMeta.any (fun r => r.id == meta.id) then
      pure { db with projectMeta := db.projectMeta.map (fun r =>
        if r.id == meta.id then
          { r with name := meta.name, description := meta.description,
                   author := meta.author, thumbnail := meta.thumbnail,
                   updatedAt := now }
        else r) }
    else
      pure { db with projectMeta := db.projectMeta ++
        [⟨meta.id, meta.name, meta.description, meta.author, meta.thumbnail,
          created_ts, now⟩] })

/-- io_sqlite.rs save_viewport: update the singleton row. -/
def save_viewport (db : Db) (viewport : Viewport) : Except AppError Db :=
  mapIoErr ("Failed to save viewport: ") (do
    checkQueryCols viewportCols ["x", "y", "zoom", "id"]
    pure { db with viewport := ⟨viewport.x, viewport.y, viewport.zoom⟩ })

/-- io_sqlite.rs save_nodes: delete all rows, then insert every node. -/
def save_nodes (db : Db) (nodes : List SynniaNode) : Except AppError Db := do
  let db0 := { db with nodes := [] }
  nodes.foldlM (fun acc node =>
    mapIoErr ("Failed to insert node: ") (do
      checkInsertCols "nodes" nodesCols
        ["id", "type", "x", "y", "width", "height", "parent_id", "extent",
         "style_json", "data_json"]
      pure { acc with nodes := acc.nodes ++
        [⟨node.id, node.type_, node.position.x, node.position.y, node.width,
          node.height, node.parent_id, node.extent,
          node.style.map (Ser.enc false), Ser.enc false node.data⟩] })) db0

/-- io_sqlite.rs save_edges: delete all rows, then insert every edge. -/
def save_edges (db : Db) (edges : List SynniaEdge) : Except AppError Db := do
  let db0 := { db with edges := [] }
  edges.foldlM (fun acc edge =>
    mapIoErr ("Failed to insert edge: ") (do
      checkInsertCols "edges" edgesCols
        ["id", "source", "target", "source_handle", "target_handle", "type",
         "label", "animated"]
      pure { acc with edges := acc.edges ++
        [⟨edge.id, edge.source, edge.target, edge.source_handle,
          edge.target_handle, edge.type_, edge.label,
          edge.animated.map (fun a => if a then (1 : Int) else 0)⟩] })) db0

/-- io_sqlite.rs save_assets: upsert every asset with the legacy column set
(id, type, content_hash, content_json, metadata_json, updated_at).  The
current assets table has none of the legacy columns beyond id and
updated_at, so the very first upsert fails at prepare time with
`table assets has no column named type`; the branch after the check is
unreachable. -/
def save_assets (db : Db) (assets : List (String × Asset)) :
    Except AppError Db := do
  let db1 ← assets.foldlM (fun acc (_pair : String × Asset) =>
    mapIoErr ("Failed to save asset: ") (do
      checkInsertCols "assets" assetsCols
        ["id", "type", "content_hash", "content_json", "metadata_json",
         "updated_at"]
      pure acc)) db
  if assets.isEmpty then
    pure db1
  else
    mapIoErr ("Failed to prepare delete: ") (do
      checkQueryCols assetsCols ["id"]
      pure { db1 with assets :=
        db1.assets.filter (fun r => (assets.map Prod.fst).contains r.id) })

/-- io_sqlite.rs save_settings: delete all rows, then insert each pair. -/
def save_settings (db : Db) (settings : Option (List (String × JVal))) :
    Except AppError Db := do
  let db0 := { db with settings := [] }
  match settings with
  | none => pure db0
  | some kvs =>
    kvs.foldlM (fun acc (kv : String × JVal) =>
      mapIoErr ("Failed to save setting: ") (do
        checkInsertCols "settings" settingsCols ["key", "value_json"]
        pure { acc with settings := acc.settings ++
          [⟨kv.1, Ser.enc false kv.2⟩] })) db0

/-- Transaction body of io_sqlite.rs save_project_sqlite: the six
sub-saves in order. -/
def saveProjectSqliteBody (db0 : Db) (project : SynniaProject) :
    Except AppError Db := do
  let db1 ← save_project_meta db0 project.meta 0
  let db2 ← save_viewport db1 project.viewport
  let db3 ← save_nodes db2 project.graph.nodes
  let db4 ← save_edges db3 project.graph.edges
  let db5 ← save_assets db4 project.assets
  save_settings db5 project.settings

/-- io_sqlite.rs save_project_sqlite: open or create synnia.db (`none`
models an absent file, created empty by init_db), run all sub-saves inside
one transaction, commit on success and roll back on any error, leaving the
database as it was when the transaction began. -/
def save_project_sqlite (dbFile : Option Db) (project : SynniaProject) :
    Except AppError Unit × Db :=
  match saveProjectSqliteBody (dbFile.getD emptyDb) project with
  | .ok db' => (.ok (), db')
  | .error e => (.error e, dbFile.getD emptyDb)

/-- io_sqlite.rs load_project_meta. -/
def load_project_meta (db : Db) : Except AppError ProjectMeta := do
  mapIoErr ("Failed to prepare query: ") (checkQueryCols metaCols
    ["id", "name", "description", "author", "thumbnail", "created_at",
     "updated_at"])
  match db.projectMeta.head? with
  | none => .error (.NotFound ("Project metadata not found"))
  | some m => pure ⟨m.id, m.name, millis_to_rfc3339 m.createdAt,
      millis_to_rfc3339 m.updatedAt, m.thumbnail, m.description, m.author⟩

/-- io_sqlite.rs load_viewport (the singleton row always exists). -/
def load_viewport (db : Db) : Except AppError Viewport :=
  mapIoErr ("Failed to load viewport: ") (do
    checkQueryCols viewportCols ["x", "y", "zoom", "id"]
    pure ⟨db.viewport.x, db.viewport.y, db.viewport.zoom⟩)

/-- Fallback node data io_sqlite.rs builds when data_json fails to parse
(the legacy struct literal, without the later has_product_handle field). -/
def legacyDefaultNodeData : SynniaNodeData :=
  ⟨"Untitled", none, none, none, none, none, none, none, none⟩

/-- io_sqlite.rs load_nodes. -/
def load_nodes (db : Db) : Except AppError (List SynniaNode) := do
  mapIoErr ("Failed to prepare query: ") (checkQueryCols nodesCols
    ["id", "type", "x", "y", "width", "height", "parent_id", "extent",
     "style_json", "data_json"])
  pure (db.nodes.map (fun r =>
    ⟨r.id, r.type_, ⟨r.x, r.y⟩, r.width, r.height, r.parentId, r.extent,
     r.styleJson.bind Ser.dec, (r.dataJson.dec).getD legacyDefaultNodeData⟩))

/-- io_sqlite.rs load_edges. -/
def load_edges (db : Db) : Except AppError (List SynniaEdge) := do
  mapIoErr ("Failed to prepare query: ") (checkQueryCols edgesCols
    ["id", "source", "target", "source_handle", "target_handle", "type",
     "label", "animated"])
  pure (db.edges.map (fun r =>
    ⟨r.id, r.source, r.target, r.sourceHandle, r.targetHandle, r.type_,
     r.label, r.animated.map (fun a => a ≠ 0)⟩))

/-- io_sqlite.rs load_assets: prepares
`SELECT id, type, content_json, metadata_json FROM assets`.  The current
assets table has no column named type, so the prepare fails with
`no such column: type` and the row mapping is unreachable. -/
def load_assets (_db : Db) : Except AppError (List (String × Asset)) := do
  mapIoErr ("Failed to prepare query: ") (checkQueryCols assetsCols
    ["id", "type", "content_json", "metadata_json"])
  pure []

/-- io_sqlite.rs load_settings. -/
def load_settings (db : Db) :
    Except AppError (Option (List (String × JVal))) := do
  mapIoErr ("Failed to prepare query: ") (checkQueryCols settingsCols
    ["key", "value_json"])
  let kvs := db.settings.map (fun r => (r.key, (r.valueJson.dec).getD JVal.null))
  pure (if kvs.isEmpty then none else some kvs)

/-- io_sqlite.rs load_project_sqlite: NotFound when synnia.db is absent,
else assemble the project from the six table loads. -/
def load_project_sqlite (dbFile : Option Db) :
    Except AppError SynniaProject :=
  match dbFile with
  | none => .error (.NotFound ("Project database not found"))
  | some db => do
    let meta ← load_project_meta db
    let viewport ← load_viewport db
    let nodes ← load_nodes db
    let edges ← load_edges db
    let assets ← load_assets db
    let settings ← load_settings db
    pure ⟨"3.0.0", meta, viewport, ⟨nodes, edges⟩, assets, settings⟩

end IoSqlite

-- ==========================================
-- Proof toolkit: evaluation lemmas for the embedded operations
-- ==========================================

@[simp]
theorem exceptBind_ok {ε α β : Type} (a : α) (f : α → Except ε β) :
    (Except.ok a : Except ε α) >>= f = f a := rfl

@[simp]
theorem exceptBind_error {ε α β : Type} (e : ε) (f : α → Except ε β) :
    (Except.error e : Except ε α) >>= f = .error e := rfl

@[simp]
theorem exceptMap_ok {ε α β : Type} (a : α) (f : α → β) :
    f <$> (Except.ok a : Except ε α) = .ok (f a) := rfl

@[simp]
theorem exceptMap_error {ε α β : Type} (e : ε) (f : α → β) :
    f <$> (Except.error e : Except ε α) = .error e := rfl

@[simp]
theorem mapIoErr_ok {α : Type} (prefix_ : String) (a : α) :
    mapIoErr prefix_ (.ok a) = .ok a := rfl

@[simp]
theorem mapIoErr_error {α : Type} (prefix_ : String) (m : String) :
    mapIoErr prefix_ (.error m : Except String α) = .error (.Io (prefix_ ++ m)) := rfl

/-- The get_history_entry statement is schema-valid; the call evaluates to
the primary-key lookup. -/
theorem get_history_entry_eval (db : Db) (historyId : Nat) :
    History.get_history_entry db historyId
      = .ok (db.history.find? (fun r => r.id == historyId)) := rfl

/-- The get_current_hash statement is rejected by the schema. -/
theorem get_current_hash_eval (db : Db) (assetId : String) :
    History.get_current_hash db assetId
      = .error ("no such column: content_hash") := rfl

/-- The restore UPDATE statement is rejected by the schema. -/
theorem updateAssetContent_eval (db : Db) (assetId : String)
    (contentJson : Ser JVal) (contentHash : Hash) (now : Int) :
    Cmd.updateAssetContent db assetId contentJson contentHash now
      = .error ("no such column: content_json") := rfl

-- ==========================================
-- Sample data used by witnesses and counterexamples
-- ==========================================

/-- Sample asset system metadata. -/
def sampleSys : AssetSysMetadata := ⟨"Text Asset", 0, 0, "user"⟩

/-- Sample text asset. -/
def sampleAsset : Asset := ⟨"a1", .text, .str "hello", none, none, sampleSys⟩

/-- Sample project metadata. -/
def sampleMeta : ProjectMeta := ⟨"pid", "proj", "t0", "t0", none, none, none⟩

/-- Node data pointing at the given asset id. -/
def sampleNodeData (assetId : Option String) : SynniaNodeData :=
  ⟨"Hello", assetId, none, none, none, none, none, none, none⟩

/-- Sample node referencing sampleAsset. -/
def sampleNode : SynniaNode :=
  ⟨"n1", "asset-node", ⟨100, 200⟩, none, none, none, none, none,
   sampleNodeData (some "a1")⟩

/-- Sample edge. -/
def sampleEdge : SynniaEdge := ⟨"e1", "n1", "n1", none, none, none, none, none⟩

/-- Sample project with one node, one edge, one asset and settings. -/
def sampleProject : SynniaProject :=
  ⟨"2.0.0", sampleMeta, ⟨0, 0, 1⟩, ⟨[sampleNode], [sampleEdge]⟩,
   [("a1", sampleAsset)], some [("k", .str "v")]⟩

/-- A second distinct project (different version tag), used where two
distinct documents are needed. -/
def sampleProject2 : SynniaProject := { sampleProject with version := "2.0.1" }

/-- Node whose data.asset_id references an id absent from the registry. -/
def danglingNode : SynniaNode :=
  ⟨"n1", "asset-node", ⟨0, 0⟩, none, none, none, none, none,
   sampleNodeData (some "ghost")⟩

/-- Project whose only node carries a dangling asset reference. -/
def danglingProject : SynniaProject :=
  ⟨"2.0.0", sampleMeta, ⟨0, 0, 1⟩, ⟨[danglingNode], []⟩, [], none⟩

/-- Filesystem whose project root directory does not exist. -/
def noRootFS : FS := ⟨false, none, none, none⟩

/-- Filesystem holding a canonical document with a dangling reference. -/
def danglingFS : FS := ⟨true, some (Ser.enc true danglingProject), none, none⟩

/-- Filesystem where both the canonical document and an autosave exist,
with different contents. -/
def bothFS : FS :=
  ⟨true, some (Ser.enc true sampleProject), none,
   some (Ser.enc false sampleProject2)⟩

-- ==========================================
-- C1: atomic save on the document backend
-- ==========================================

/-- C1: for every starting filesystem state and project, every state
save_project passes through before the atomic rename leaves synnia.json
byte-identical to what it held before the save began, and at every state of
the whole run the canonical file holds either the old content or the
complete new serialized project, never anything else. -/
theorem save_project_atomic (fs : FS) (p : SynniaProject) :
    (∀ s ∈ saveProjectPreRenameStates fs p, s.canonical = fs.canonical) ∧
    (∀ s ∈ saveProjectAllStates fs p,
      s.canonical = fs.canonical ∨ s.canonical = some (Ser.enc true p)) := by
  constructor
  · intro s hs
    unfold saveProjectPreRenameStates at hs
    by_cases h : fs.rootExists
    · simp [h] at hs
      rcases hs with rfl | rfl | rfl <;> rfl
    · simp [h] at hs
      subst hs; rfl
  · intro s hs
    unfold saveProjectAllStates at hs
    by_cases h : fs.rootExists
    · simp [h] at hs
      rcases hs with rfl | rfl | rfl | rfl | rfl
      · exact Or.inl rfl
      · exact Or.inl rfl
      · exact Or.inl rfl
      · exact Or.inr rfl
      · exact Or.inr rfl
    · simp [h] at hs
      subst hs; exact Or.inl rfl

/-- Witness for C1 at a concrete filesystem, project and crash point (the
state right after the temp write, the last point before the rename). -/
theorem save_project_atomic_witness :
    (saveStepWriteTmp bothFS sampleProject2).canonical = bothFS.canonical :=
  (save_project_atomic bothFS sampleProject2).1
    (saveStepWriteTmp bothFS sampleProject2)
    (by unfold saveProjectPreRenameStates; simp [bothFS])

-- ==========================================
-- C6: hot-exit precedence
-- ==========================================

/-- C6: when both synnia.json and synnia.json.autosave exist, load_project
reads and parses the autosave artifact; after a subsequent successful
save_project, the autosave artifact is gone, the canonical document holds
the newly saved project, and load_project returns that project. -/
theorem hot_exit_precedence (fs : FS) (p : SynniaProject)
    (a c : Ser SynniaProject) (hroot : fs.rootExists = true)
    (ha : fs.autosave = some a) (hc : fs.canonical = some c) :
    load_project fs = readProjectFile a ∧
    (save_project fs p).1 = .ok () ∧
    (save_project fs p).2.autosave = none ∧
    (save_project fs p).2.canonical = some (Ser.enc true p) ∧
    load_project (save_project fs p).2 = .ok p := by
  simp [load_project, save_project, saveStepCleanAutosave, saveStepRename,
    saveStepWriteTmp, readProjectFile, Ser.dec, hroot, ha, hc]

/-- Witness for C6 at a concrete filesystem where the canonical document
and the autosave differ. -/
theorem hot_exit_precedence_witness :
    load_project bothFS = readProjectFile (Ser.enc false sampleProject2) ∧
    load_project (save_project bothFS sampleProject).2 = .ok sampleProject :=
  ⟨(hot_exit_precedence bothFS sampleProject (Ser.enc false sampleProject2)
      (Ser.enc true sampleProject) rfl rfl rfl).1,
   (hot_exit_precedence bothFS sampleProject (Ser.enc false sampleProject2)
      (Ser.enc true sampleProject) rfl rfl rfl).2.2.2.2⟩

-- ==========================================
-- C7: no referential check on load (claim corrected)
-- ==========================================

/-- C7 counterexample: loading a project whose only node references the
absent asset id ghost does not fail at all, let alone with a
ConsistencyError (error.rs AppError has no such variant): load_project
returns the project unchanged, dangling reference included. -/
theorem load_dangling_ref_counterexample :
    load_project danglingFS = .ok danglingProject ∧
    danglingProject.graph.nodes.map (fun n => n.data.asset_id)
      = [some "ghost"] ∧
    (danglingProject.assets.map Prod.fst).contains "ghost" = false :=
  ⟨rfl, rfl, rfl⟩

/-- C7 amended: load_project performs no referential check; every
successfully parsed canonical document is returned as is, including
projects whose nodes reference asset ids absent from the registry. -/
theorem load_project_no_referential_check (fs : FS) (p : SynniaProject)
    (hauto : fs.autosave = none)
    (hc : fs.canonical = some (Ser.enc true p)) :
    load_project fs = .ok p := by
  unfold load_project
  simp [hauto, hc, readProjectFile, Ser.dec]

/-- Witness for the amended C7 at the dangling-reference project. -/
theorem load_project_no_referential_check_witness :
    load_project danglingFS = .ok danglingProject :=
  load_project_no_referential_check danglingFS danglingProject rfl rfl

-- ==========================================
-- C9: autosave failures are propagated, not swallowed (claim corrected)
-- ==========================================

/-- C9 counterexample: with a missing project root directory,
save_project_autosave raises an Io error to its caller instead of
swallowing it. -/
theorem autosave_error_counterexample :
    (save_project_autosave noRootFS sampleProject).1
      = .error (.Io ("Project path does not exist")) ∧
    (save_project_autosave noRootFS sampleProject).1 ≠ .ok () :=
  ⟨rfl, fun h => nomatch h⟩

/-- C9 amended: save_project_autosave returns its failures (missing root
directory and onward) to the caller as an AppError rather than swallowing
them; it succeeds when the root exists; and the primary save path is
independent of the autosave artifact: save_project computes the same result
whatever the autosave file holds, so an autosave failure can never block or
fail it. -/
theorem autosave_error_propagation (fs : FS) (p : SynniaProject) :
    (fs.rootExists = false →
      (save_project_autosave fs p).1
          = .error (.Io ("Project path does not exist")) ∧
      (save_project_autosave fs p).2 = fs) ∧
    (fs.rootExists = true → (save_project_autosave fs p).1 = .ok ()) ∧
    (∀ a, (save_project { fs with autosave := a } p).1
        = (save_project fs p).1) := by
  refine ⟨fun h => ?_, fun h => ?_, fun a => ?_⟩
  · simp [save_project_autosave, h]
  · simp [save_project_autosave, h]
  · by_cases h : fs.rootExists <;> simp [save_project, h]

/-- Witness for the amended C9 at a concrete missing-root filesystem. -/
theorem autosave_error_propagation_witness :
    (save_project_autosave noRootFS sampleProject).1
      = .error (.Io ("Project path does not exist")) :=
  ((autosave_error_propagation noRootFS sampleProject).1 rfl).1

-- ==========================================
-- C3: save_asset_with_history cannot run against the current schema
-- ==========================================

/-- C3 (code bug): the first database access of commands/history.rs
save_asset_with_history is get_current_hash, which prepares
`SELECT content_hash FROM assets` against a table whose hash column is
value_hash; sqlite rejects it, so the command errors for every database,
asset and time, never returning the changed flag the claim describes. -/
theorem save_asset_with_history_always_errors (db : Db) (asset : Asset)
    (now : Int) :
    Cmd.save_asset_with_history db asset now
      = .error (.Io ("Failed to get current hash: no such column: content_hash")) := by
  rfl

-- ==========================================
-- C8: restore_asset_version cannot write against the current schema
-- ==========================================

/-- C8 (code bug): restore_asset_version correctly rejects a history entry
belonging to another asset, but on a matching entry its
`UPDATE assets SET content_json = .., content_hash = ..` names columns the
assets table does not have (they are value_json and value_hash), so the
restore errors instead of writing the restored content. -/
theorem restore_asset_version_broken (db : Db) (assetId : String)
    (historyId : Nat) (now : Int) (e : HistRow)
    (hfind : db.history.find? (fun r => r.id == historyId) = some e) :
    (e.assetId ≠ assetId →
      Cmd.restore_asset_version db assetId historyId now
        = .error (.Unknown ("History entry does not belong to this asset"))) ∧
    (∀ v : JVal, ∀ b : Bool, e.assetId = assetId → e.contentJson = Ser.enc b v →
      Cmd.restore_asset_version db assetId historyId now
        = .error (.Io ("Failed to restore asset: no such column: content_json"))) := by
  constructor
  · intro hne
    unfold Cmd.restore_asset_version
    rw [get_history_entry_eval, hfind]
    simp [hne]
  · intro v b heq henc
    unfold Cmd.restore_asset_version
    rw [get_history_entry_eval, hfind]
    simp [heq, henc, Ser.dec, updateAssetContent_eval]

/-- Sample stored history row for asset a1. -/
def sampleHistRow : HistRow :=
  ⟨1, "a1", compute_content_hash (Ser.enc false (.str "v1")),
   Ser.enc false (.str "v1"), 100⟩

/-- Sample stored asset row for a1 in the current schema. -/
def sampleAssetRow : AssetRow :=
  ⟨"a1", Ser.enc false .text, compute_content_hash (Ser.enc false (.str "v3")),
   Ser.enc false (.str "v3"), none, none, Ser.enc false sampleSys, 300⟩

/-- Database holding asset a1 and one history entry for it. -/
def sampleDb : Db :=
  { emptyDb with assets := [sampleAssetRow], history := [sampleHistRow],
                 nextHistId := 2 }

/-- Witness for C8: restoring entry 1 of asset a1 (a matching pair) fails
with the no-such-column error instead of restoring v1. -/
theorem restore_asset_version_broken_witness :
    Cmd.restore_asset_version sampleDb "a1" 1 400
      = .error (.Io ("Failed to restore asset: no such column: content_json")) :=
  (restore_asset_version_broken sampleDb "a1" 1 400 sampleHistRow rfl).2
    (.str "v1") false rfl rfl

-- ==========================================
-- C2: the sqlite backend cannot round-trip any project with assets
-- ==========================================

/-- Monadic fold whose step never fails never fails. -/
theorem foldlM_ok {α β : Type} (f : β → α → Except AppError β)
    (h : ∀ b a, ∃ b', f b a = .ok b') :
    ∀ (l : List α) (b : β), ∃ b', l.foldlM f b = .ok b' := by
  intro l
  induction l with
  | nil => intro b; exact ⟨b, rfl⟩
  | cons a t ih =>
    intro b
    obtain ⟨b1, hb1⟩ := h b a
    obtain ⟨b2, hb2⟩ := ih b1
    exact ⟨b2, by rw [List.foldlM_cons, hb1]; simpa using hb2⟩

/-- save_project_meta always succeeds (its statement is schema-valid). -/
theorem save_project_meta_ok (db : Db) (meta : ProjectMeta) (now : Int) :
    ∃ db', IoSqlite.save_project_meta db meta now = .ok db' := by
  unfold IoSqlite.save_project_meta
  by_cases h : db.projectMeta.any (fun r => r.id == meta.id) <;>
    simp [mapIoErr, checkInsertCols, firstMissingCol, h, metaCols]

/-- save_nodes always succeeds (its statements are schema-valid). -/
theorem save_nodes_ok (db : Db) (nodes : List SynniaNode) :
    ∃ db', IoSqlite.save_nodes db nodes = .ok db' := by
  unfold IoSqlite.save_nodes
  exact foldlM_ok _ (fun b a => ⟨_, rfl⟩) nodes _

/-- save_edges always succeeds (its statements are schema-valid). -/
theorem save_edges_ok (db : Db) (edges : List SynniaEdge) :
    ∃ db', IoSqlite.save_edges db edges = .ok db' := by
  unfold IoSqlite.save_edges
  exact foldlM_ok _ (fun b a => ⟨_, rfl⟩) edges _

/-- save_assets fails on its first asset: the legacy INSERT names the
column type, which the current assets table lacks. -/
theorem save_assets_err (db : Db) (k : String) (a : Asset)
    (rest : List (String × Asset)) :
    IoSqlite.save_assets db ((k, a) :: rest)
      = .error (.Io ("Failed to save asset: table assets has no column named type")) := by
  rfl

/-- C2 (code bug): on the sqlite backend, saving any project holding at
least one asset fails (first legacy asset INSERT is rejected by the
schema) and the transaction rolls back to the state the database had when
the save began; independently, load_project_sqlite fails for every
database file whatsoever (its load_assets SELECT is also rejected), so
save-then-load can never reproduce a project. -/
theorem sqlite_backend_roundtrip_broken (dbFile : Option Db)
    (p : SynniaProject) (k : String) (a : Asset)
    (rest : List (String × Asset)) (hassets : p.assets = (k, a) :: rest) :
    (IoSqlite.save_project_sqlite dbFile p).1
      = .error (.Io ("Failed to save asset: table assets has no column named type")) ∧
    (IoSqlite.save_project_sqlite dbFile p).2 = dbFile.getD emptyDb ∧
    (∀ f : Option Db, ∃ e, IoSqlite.load_project_sqlite f = .error e) := by
  have hbody : ∀ db0 : Db, IoSqlite.saveProjectSqliteBody db0 p
      = .error (.Io ("Failed to save asset: table assets has no column named type")) := by
    intro db0
    obtain ⟨db1, h1⟩ := save_project_meta_ok db0 p.meta 0
    have h2 : IoSqlite.save_viewport db1 p.viewport = .ok
        { db1 with viewport := ⟨p.viewport.x, p.viewport.y, p.viewport.zoom⟩ } := rfl
    obtain ⟨db3, h3⟩ := save_nodes_ok
      { db1 with viewport := ⟨p.viewport.x, p.viewport.y, p.viewport.zoom⟩ }
      p.graph.nodes
    obtain ⟨db4, h4⟩ := save_edges_ok db3 p.graph.edges
    unfold IoSqlite.saveProjectSqliteBody
    rw [h1, exceptBind_ok, h2, exceptBind_ok, h3, exceptBind_ok, h4,
      exceptBind_ok, hassets, save_assets_err]
    rfl
  refine ⟨?_, ?_, ?_⟩
  · unfold IoSqlite.save_project_sqlite
    rw [hbody (dbFile.getD emptyDb)]
  · unfold IoSqlite.save_project_sqlite
    rw [hbody (dbFile.getD emptyDb)]
  · intro f
    match f with
    | none => exact ⟨.NotFound ("Project database not found"), rfl⟩
    | some db =>
      match hm : db.projectMeta.head? with
      | none =>
        refine ⟨.NotFound ("Project metadata not found"), ?_⟩
        have hmeta : IoSqlite.load_project_meta db
            = .error (.NotFound ("Project metadata not found")) := by
          unfold IoSqlite.load_project_meta
          rw [hm]
          rfl
        show (do
          let meta ← IoSqlite.load_project_meta db
          let viewport ← IoSqlite.load_viewport db
          let nodes ← IoSqlite.load_nodes db
          let edges ← IoSqlite.load_edges db
          let assets ← IoSqlite.load_assets db
          let settings ← IoSqlite.load_settings db
          pure (⟨"3.0.0", meta, viewport, ⟨nodes, edges⟩, assets, settings⟩ :
            SynniaProject)) = _
        rw [hmeta]
        rfl
      | some m =>
        refine ⟨.Io ("Failed to prepare query: no such column: type"), ?_⟩
        have hmeta : IoSqlite.load_project_meta db = .ok
            ⟨m.id, m.name, IoSqlite.millis_to_rfc3339 m.createdAt,
             IoSqlite.millis_to_rfc3339 m.updatedAt, m.thumbnail,
             m.description, m.author⟩ := by
          unfold IoSqlite.load_project_meta
          rw [hm]
          rfl
        show (do
          let meta ← IoSqlite.load_project_meta db
          let viewport ← IoSqlite.load_viewport db
          let nodes ← IoSqlite.load_nodes db
          let edges ← IoSqlite.load_edges db
          let assets ← IoSqlite.load_assets db
          let settings ← IoSqlite.load_settings db
          pure (⟨"3.0.0", meta, viewport, ⟨nodes, edges⟩, assets, settings⟩ :
            SynniaProject)) = _
        rw [hmeta]
        rfl

/-- Witness for C2 at the sample project (one node, one edge, one asset,
settings) against a fresh database file. -/
theorem sqlite_backend_roundtrip_broken_witness :
    (IoSqlite.save_project_sqlite none sampleProject).1
      = .error (.Io ("Failed to save asset: table assets has no column named type")) :=
  (sqlite_backend_roundtrip_broken none sampleProject "a1" sampleAsset []
    rfl).1

-- ==========================================
-- C4: snapshot deduplication
-- ==========================================

/-- The history INSERT and DELETE statements are schema-valid, so
cleanup_old_history evaluates to its pure DELETE result. -/
theorem cleanup_eval (db : Db) (assetId : String) :
    History.cleanup_old_history db assetId = .ok (History.cleanupDb db assetId) := rfl

/-- create_snapshot_if_changed on an already-present (asset_id, hash) pair:
INSERT OR IGNORE affects no row, nothing changes, result false. -/
theorem create_snapshot_dup (db : Db) (assetId : String) (h : Hash)
    (c : Ser JVal) (t : Int)
    (hany : db.history.any
      (fun r => r.assetId == assetId && r.contentHash == h) = true) :
    History.create_snapshot_if_changed db assetId h c t = .ok (false, db) := by
  unfold History.create_snapshot_if_changed
  have hguard : checkInsertCols "asset_history" historyCols
      ["asset_id", "content_hash", "content_json", "created_at"] = .ok () := rfl
  rw [hguard]
  simp [hany]

/-- create_snapshot_if_changed on a fresh (asset_id, hash) pair: the row is
inserted and the retention cleanup runs. -/
theorem create_snapshot_new (db : Db) (assetId : String) (h : Hash)
    (c : Ser JVal) (t : Int)
    (hany : db.history.any
      (fun r => r.assetId == assetId && r.contentHash == h) = false) :
    History.create_snapshot_if_changed db assetId h c t
      = .ok (true, History.cleanupDb
          (History.insertDb db assetId h c t) assetId) := by
  unfold History.create_snapshot_if_changed
  have hguard : checkInsertCols "asset_history" historyCols
      ["asset_id", "content_hash", "content_json", "created_at"] = .ok () := rfl
  rw [hguard]
  simp [hany, cleanup_eval]

/-- When a just-inserted row is strictly newer than every stored row of its
asset, the retention cleanup keeps it: it is among the newest 50. -/
theorem newRow_mem_cleanup (db : Db) (assetId : String) (h : Hash)
    (c : Ser JVal) (t : Int)
    (hnewer : ∀ r ∈ db.history, r.assetId = assetId → r.createdAt < t) :
    (⟨db.nextHistId, assetId, h, c, t⟩ : HistRow)
      ∈ (History.cleanupDb (History.insertDb db assetId h c t) assetId).history := by
  set nr : HistRow := ⟨db.nextHistId, assetId, h, c, t⟩ with hnr
  set A : List HistRow :=
    (db.history ++ [nr]).filter (fun r => r.assetId == assetId) with hA
  set L : List HistRow := History.sortNewestFirst A with hL
  have hperm : List.Perm L A := List.perm_insertionSort _ _
  have hnrA : nr ∈ A := by
    rw [hA]
    refine List.mem_filter.mpr ⟨by simp, by simp [hnr]⟩
  have hmemL : nr ∈ L := hperm.mem_iff.mpr hnrA
  have htake : nr ∈ L.take 50 := by
    rcases List.mem_append.mp ((List.take_append_drop 50 L) ▸ hmemL)
      with htk | hdrop
    · exact htk
    · exfalso
      have hlen : 50 < L.length := by
        by_contra hle
        push_neg at hle
        rw [List.drop_eq_nil_of_le hle] at hdrop
        exact absurd hdrop (List.not_mem_nil _)
      have htklen : (L.take 50).length = 50 := by
        rw [List.length_take]; omega
      have htknil : L.take 50 ≠ [] := by
        intro hnil; rw [hnil] at htklen; simp at htklen
      obtain ⟨x, hx⟩ := List.exists_mem_of_ne_nil _ htknil
      have hsorted : L.Pairwise History.histNewer :=
        List.sorted_insertionSort _ _
      have hpw := (List.pairwise_append.mp
        ((List.take_append_drop 50 L) ▸ hsorted)).2.2
      have hrel : History.histNewer x nr := hpw x hx nr hdrop
      have hxA : x ∈ A := hperm.mem_iff.mp (List.mem_of_mem_take hx)
      rw [hA, List.filter_append] at hxA
      rcases List.mem_append.mp hxA with hxo | hxn
      · have hx1 := List.mem_filter.mp hxo
        have hxt : x.createdAt < t :=
          hnewer x hx1.1 (by simpa using hx1.2)
        rcases hrel with h1 | ⟨h2, _⟩
        · rw [hnr] at h1; simp at h1; omega
        · rw [hnr] at h2; simp at h2; omega
      · have hxeq : x = nr := by
          have := List.mem_filter.mp hxn
          simpa using this.1
        subst hxeq
        have hcnt : L.count nr = A.count nr := hperm.count_eq nr
        have hAcnt : A.count nr = 1 := by
          rw [hA, List.filter_append, List.count_append]
          have h0 : (db.history.filter
              (fun r => r.assetId == assetId)).count nr = 0 := by
            rw [List.count_eq_zero]
            intro hmem'
            have hm := List.mem_filter.mp hmem'
            have := hnewer nr hm.1 (by rw [hnr])
            rw [hnr] at this; simp at this
          rw [h0]
          simp [hnr]
        have h1 : 0 < (L.take 50).count nr := List.count_pos_iff.mpr hx
        have h2 : 0 < (L.drop 50).count nr := List.count_pos_iff.mpr hdrop
        have h3 : L.count nr = (L.take 50).count nr + (L.drop 50).count nr := by
          conv_lhs => rw [← List.take_append_drop 50 L]
          rw [List.count_append]
        omega
  show nr ∈ List.filter _ _
  refine List.mem_filter.mpr ⟨by simp [History.insertDb], ?_⟩
  have hid : nr.id ∈ History.keepIds
      (History.insertDb db assetId h c t).history assetId := by
    unfold History.keepIds History.applyLimit
    rw [if_neg (by decide)]
    refine List.mem_map.mpr ⟨nr, ?_, rfl⟩
    have : (History.MAX_HISTORY_PER_ASSET : Int).toNat = 50 := rfl
    rw [this]
    exact htake
  simp only [Bool.or_eq_true, List.contains_eq_any_beq, List.any_eq_true]
  right
  exact ⟨nr.id, hid, by simp⟩

/-- C4: snapshotting the same content twice in a row yields true then
false, the second call changing nothing (shown whenever the pair is fresh
and the call is later than every stored row of the asset, the situation the
claim describes); and in general an entry is inserted only if no existing
entry shares (asset_id, content_hash): on a shared pair the call returns
false and leaves the ledger untouched. -/
theorem snapshot_dedup :
    (∀ (db : Db) (assetId : String) (c : Ser JVal) (t₁ t₂ : Int),
      (∀ r ∈ db.history,
        ¬(r.assetId = assetId ∧ r.contentHash = compute_content_hash c)) →
      (∀ r ∈ db.history, r.assetId = assetId → r.createdAt < t₁) →
      ∃ db₁,
        History.create_snapshot_if_changed db assetId
          (compute_content_hash c) c t₁ = .ok (true, db₁) ∧
        History.create_snapshot_if_changed db₁ assetId
          (compute_content_hash c) c t₂ = .ok (false, db₁)) ∧
    (∀ (db : Db) (assetId : String) (h : Hash) (c : Ser JVal) (t : Int)
        (r : HistRow), r ∈ db.history → r.assetId = assetId →
      r.contentHash = h →
      History.create_snapshot_if_changed db assetId h c t
        = .ok (false, db)) := by
  constructor
  · intro db assetId c t₁ t₂ hnodup hnewer
    have hany : db.history.any (fun r =>
        r.assetId == assetId && r.contentHash == compute_content_hash c)
        = false := by
      by_contra hne
      rw [Bool.not_eq_false, List.any_eq_true] at hne
      obtain ⟨r, hr, hp⟩ := hne
      simp only [Bool.and_eq_true, beq_iff_eq] at hp
      exact hnodup r hr ⟨hp.1, hp.2⟩
    refine ⟨History.cleanupDb
      (History.insertDb db assetId (compute_content_hash c) c t₁) assetId,
      create_snapshot_new db assetId _ c t₁ hany, ?_⟩
    have hmem := newRow_mem_cleanup db assetId (compute_content_hash c) c t₁
      hnewer
    apply create_snapshot_dup
    rw [List.any_eq_true]
    exact ⟨_, hmem, by simp⟩
  · intro db assetId h c t r hr h1 h2
    apply create_snapshot_dup
    rw [List.any_eq_true]
    exact ⟨r, hr, by simp [h1, h2]⟩

/-- Witness for C4: on the empty ledger, snapshotting content w twice
yields true then false with the ledger unchanged in between. -/
theorem snapshot_dedup_witness :
    ∃ db₁,
      History.create_snapshot_if_changed emptyDb "a1"
        (compute_content_hash (Ser.enc false (.str "w")))
        (Ser.enc false (.str "w")) 1 = .ok (true, db₁) ∧
      History.create_snapshot_if_changed db₁ "a1"
        (compute_content_hash (Ser.enc false (.str "w")))
        (Ser.enc false (.str "w")) 2 = .ok (false, db₁) :=
  snapshot_dedup.1 emptyDb "a1" (Ser.enc false (.str "w")) 1 2
    (by simp [emptyDb]) (by simp [emptyDb])

-- ==========================================
-- C5: retention cap of 50 entries per asset
-- ==========================================

/-- Content of the i-th snapshot in the 60-insert retention scenario. -/
def scContent (i : Nat) : Ser JVal := Ser.enc false (.str (toString i))

/-- One step of the retention scenario: snapshot content i at time 1000+i,
accumulating whether every call so far was an actual insert. -/
def scStep (acc : Db × Bool) (i : Nat) : Db × Bool :=
  match History.create_snapshot_if_changed acc.1 "a1"
      (compute_content_hash (scContent i)) (scContent i) (1000 + (i : Int)) with
  | .ok (b, db') => (db', acc.2 && b)
  | .error _ => (acc.1, false)

/-- The retention scenario: 60 snapshots with distinct contents for one
asset against a fresh database. -/
def scRun : Db × Bool := (List.range 60).foldl scStep (emptyDb, true)

/-- The rows the scenario must leave: the newest 50 of the 60 inserts
(inserts 10 .. 59), newest first. -/
def scExpected : List HistRow :=
  (List.range 50).map (fun k =>
    ⟨60 - k, "a1", compute_content_hash (scContent (59 - k)),
     scContent (59 - k), 1000 + ((59 - k : Nat) : Int)⟩)

/-- C5: after every successful snapshot insert the ledger holds at most 50
entries for the asset (assuming the primary-key invariants of the history
table: unique row ids, all below the AUTOINCREMENT counter); and concretely,
inserting 60 distinct-content snapshots for one asset succeeds at every
step and leaves exactly 50 entries, the newest 50 in newest-first order. -/
theorem history_retention :
    (∀ (db : Db) (assetId : String) (h : Hash) (c : Ser JVal) (t : Int)
        (db₂ : Db),
      (∀ r ∈ db.history, r.id < db.nextHistId) →
      (db.history.map (fun r => r.id)).Nodup →
      History.create_snapshot_if_changed db assetId h c t = .ok (true, db₂) →
      ((db₂.history.filter (fun r => r.assetId == assetId)).length ≤ 50)) ∧
    (scRun.2 = true ∧
     (scRun.1.history.filter (fun r => r.assetId == "a1")).length = 50 ∧
     History.get_asset_history scRun.1 "a1" none = .ok scExpected) := by
  constructor
  · intro db assetId h c t db₂ hfresh hids hok
    have hinv : db₂ = History.cleanupDb
        (History.insertDb db assetId h c t) assetId := by
      by_cases hany : db.history.any
          (fun r => r.assetId == assetId && r.contentHash == h) = true
      · rw [create_snapshot_dup db assetId h c t hany] at hok
        simp at hok
      · have hf : db.history.any
            (fun r => r.assetId == assetId && r.contentHash == h) = false := by
          revert hany
          cases db.history.any
            (fun r => r.assetId == assetId && r.contentHash == h) <;> simp
        rw [create_snapshot_new db assetId h c t hf] at hok
        simp at hok
        exact hok.symm
    subst hinv
    set H : List HistRow := (History.insertDb db assetId h c t).history
      with hH
    have hHdef : H = db.history
        ++ [⟨db.nextHistId, assetId, h, c, t⟩] := rfl
    set kept : List HistRow :=
      (History.cleanupDb (History.insertDb db assetId h c t)
        assetId).history.filter (fun r => r.assetId == assetId) with hkept
    have hkept2 : kept = H.filter (fun r => (r.assetId == assetId)
        && (!(r.assetId == assetId)
            || (History.keepIds H assetId).contains r.id)) := by
      rw [hkept]
      show ((H.filter _).filter _) = _
      rw [List.filter_filter]
    have hsub : kept.map (fun r => r.id)
        ⊆ History.keepIds H assetId := by
      intro a ha
      obtain ⟨r, hr, hra⟩ := List.mem_map.mp ha
      rw [hkept2] at hr
      have hp := (List.mem_filter.mp hr).2
      simp only [Bool.and_eq_true, Bool.or_eq_true, Bool.not_eq_true'] at hp
      rcases hp.2 with hcontra | hcontains
      · rw [hp.1] at hcontra; cases hcontra
      · rw [← hra]
        exact List.mem_of_elem_eq_true hcontains
    have hHnodup : (H.map (fun r => r.id)).Nodup := by
      rw [hHdef, List.map_append]
      refine List.nodup_append.mpr ⟨hids, by simp, ?_⟩
      intro a ha hb
      obtain ⟨r, hr, hra⟩ := List.mem_map.mp ha
      have hlt := hfresh r hr
      simp only [List.map_cons, List.map_nil, List.mem_singleton] at hb
      subst hb
      rw [hra] at hlt
      exact absurd hlt (lt_irrefl _)
    have hkeptnodup : (kept.map (fun r => r.id)).Nodup := by
      have hsl : List.Sublist kept H := by
        rw [hkept2]; exact List.filter_sublist _
      exact List.Nodup.sublist (List.Sublist.map _ hsl) hHnodup
    have hlen1 : kept.length ≤ (History.keepIds H assetId).length := by
      have := (List.subperm_of_subset hkeptnodup hsub).length_le
      rwa [List.length_map] at this
    have hlen2 : (History.keepIds H assetId).length ≤ 50 := by
      unfold History.keepIds History.applyLimit
      rw [if_neg (by decide)]
      rw [List.length_map, List.length_take]
      exact min_le_left _ _
    exact le_trans hlen1 hlen2
  · exact ⟨by decide, by decide, by decide⟩

/-- Witness database: the sample database after one fresh snapshot of
content v2 for asset a1. -/
def witSnapDb : Db :=
  History.cleanupDb
    (History.insertDb sampleDb "a1"
      (compute_content_hash (Ser.enc false (.str "v2")))
      (Ser.enc false (.str "v2")) 500) "a1"

/-- Witness for C5 at a concrete database and insert. -/
theorem history_retention_witness :
    (witSnapDb.history.filter (fun r => r.assetId == "a1")).length ≤ 50 :=
  history_retention.1 sampleDb "a1"
    (compute_content_hash (Ser.enc false (.str "v2")))
    (Ser.enc false (.str "v2")) 500 witSnapDb
    (by decide) (by decide) rfl

-- ==========================================
-- C10: command get_asset_history shape
-- ==========================================

/-- C10: for an asset present in the registry and a limit L greater than 1,
the public get_asset_history returns the current version first, with the
reserved id 0, the current hash, a preview of the current content and the
asset's updated-at time; the rest are the historical snapshots newest first
(weakly decreasing created_at), at most L-1 of them, so the total including
the current row does not exceed L. -/
theorem get_asset_history_current_first (db : Db) (assetId : String)
    (row : AssetRow) (L : Int)
    (hrow : db.assets.find? (fun r => r.id == assetId) = some row)
    (hL : 1 < L) :
    ∃ tail, Cmd.get_asset_history db assetId (some L)
        = .ok (⟨0, assetId, row.valueHash,
            Cmd.truncate_content row.valueJson 100, row.updatedAt⟩ :: tail) ∧
      tail = (History.applyLimit (L - 1) (History.sortNewestFirst
          (db.history.filter (fun r => r.assetId == assetId)))).map
          (fun e => ⟨(e.id : Int), e.assetId, e.contentHash,
            Cmd.truncate_content e.contentJson 100, e.createdAt⟩) ∧
      tail.length ≤ (L - 1).toNat ∧
      (1 + tail.length : Int) ≤ L ∧
      List.Pairwise (fun a b : Cmd.HistoryEntry =>
        b.created_at ≤ a.created_at) tail := by
  have hsvc : History.get_asset_history db assetId (some (L - 1))
      = .ok (History.applyLimit (L - 1) (History.sortNewestFirst
          (db.history.filter (fun r => r.assetId == assetId)))) := rfl
  set sorted : List HistRow := History.sortNewestFirst
    (db.history.filter (fun r => r.assetId == assetId)) with hsorted
  set tail : List Cmd.HistoryEntry :=
    (History.applyLimit (L - 1) sorted).map
      (fun e => ⟨(e.id : Int), e.assetId, e.contentHash,
        Cmd.truncate_content e.contentJson 100, e.createdAt⟩) with htail
  have hlen : tail.length ≤ (L - 1).toNat := by
    rw [htail, List.length_map]
    unfold History.applyLimit
    split
    · next hneg => omega
    · rw [List.length_take]
      exact min_le_left _ _
  refine ⟨tail, ?_, rfl, hlen, ?_, ?_⟩
  · unfold Cmd.get_asset_history
    rw [hrow]
    have hlim : (some L).map (fun l => if l > 1 then l - 1 else l)
        = some (L - 1) := by simp [hL]
    dsimp only
    rw [hlim, hsvc]
    rfl
  · omega
  · rw [htail]
    have hpw : (History.applyLimit (L - 1) sorted).Pairwise
        History.histNewer := by
      have hs : sorted.Pairwise History.histNewer :=
        List.sorted_insertionSort _ _
      unfold History.applyLimit
      split
      · exact hs
      · exact List.Pairwise.sublist (List.take_sublist _ _) hs
    refine List.Pairwise.map _ (fun a b hab => ?_) hpw
    rcases hab with h1 | ⟨h2, _⟩
    · exact le_of_lt h1
    · exact le_of_eq h2

/-- Witness for C10 at the sample database (asset a1 present, one history
row) with limit 5. -/
theorem get_asset_history_current_first_witness :
    Cmd.get_asset_history sampleDb "a1" (some 5)
      = .ok (⟨0, "a1", sampleAssetRow.valueHash,
          Cmd.truncate_content sampleAssetRow.valueJson 100,
          sampleAssetRow.updatedAt⟩ ::
        (History.applyLimit (5 - 1) (History.sortNewestFirst
          (sampleDb.history.filter (fun r => r.assetId == "a1")))).map
          (fun e => ⟨(e.id : Int), e.assetId, e.contentHash,
            Cmd.truncate_content e.contentJson 100, e.createdAt⟩)) := by
  obtain ⟨tail, h1, h2, _⟩ :=
    get_asset_history_current_first sampleDb "a1" sampleAssetRow 5 rfl
      (by decide)
  rw [h1, h2]

end Synnia
